import Mathlib

/-!
Verification of the three-tier simulation pipeline: an NLP agent
(agent.py) that turns free text into a JSON configuration, a driver
script (simulation_runner.py) that maps the configuration to a sequence
of CAE host API calls, and a hardcoded proof-of-concept script
(cantilever_poc.py).  Pure logic (string post-processing, the mesh
sizing precheck, config extraction, call sequencing) is embedded
shallowly; calls into the external CAE host, prints, file writes and
subprocess invocations are recorded as events in traces.
-/

namespace AiAutomationPoc

/-! ## Python string primitives

These model the fragment of Python string behaviour used by
agent.py: startswith / endswith, slicing, and strip() restricted to
the ASCII whitespace characters Python strips.  Strings are modelled
as lists of characters so that slicing is structural. -/

/-- The characters for which the Python str.isspace method is true,
which is exactly the set the Python str.strip method removes with no
argument: tab through carriage return (9 to 13), the separators 28 to
31, space (32), next line (133), no-break space (160), ogham space
mark (5760), the Unicode spaces 8192 to 8202, line separator (8232),
paragraph separator (8233), narrow no-break space (8239), medium
mathematical space (8287), and ideographic space (12288). -/
def isPySpace (c : Char) : Bool :=
  (9 ≤ c.toNat && c.toNat ≤ 13) || (28 ≤ c.toNat && c.toNat ≤ 31) ||
  (c.toNat == 32) || (c.toNat == 133) || (c.toNat == 160) ||
  (c.toNat == 5760) || (8192 ≤ c.toNat && c.toNat ≤ 8202) ||
  (c.toNat == 8232) || (c.toNat == 8233) || (c.toNat == 8239) ||
  (c.toNat == 8287) || (c.toNat == 12288)

/-- Python str.strip(): remove leading and trailing whitespace. -/
def pyStrip (s : List Char) : List Char :=
  ((s.dropWhile isPySpace).reverse.dropWhile isPySpace).reverse

/-- The literal "```json" opening fence tested by agent.py line 145. -/
def fence_json : List Char := "```json".toList

/-- The literal "```" closing fence tested by agent.py line 147. -/
def fence_ticks : List Char := "```".toList

/-- Post-processing of the model response inside
get_simulation_config_from_gemini (agent.py lines 144 to 148): if the
response starts with the literal "```json" drop its first 7 characters
and strip; if the result ends with the literal "```" drop its last 3
characters and strip. -/
def gemini_postprocess (json_string : List Char) : List Char :=
  let s1 := if fence_json.isPrefixOf json_string
            then pyStrip (json_string.drop 7) else json_string
  if fence_ticks.isSuffixOf s1
  then pyStrip (s1.take (s1.length - 3)) else s1

/-- A response wrapped in markdown fences: the "```json" opening fence,
then the response, then the "```" closing fence (the situation the
spec describes for claim C4). -/
def wrap_fences (s : List Char) : List Char :=
  fence_json ++ (s ++ fence_ticks)

/-! ## The configuration data model

The JSON configuration is the contract between the agent and the
driver.  The driver dereferences dictionary keys lazily, so every
field is modelled as an Option: `none` models an absent key, and a
`config[key]` access on an absent key is a Python KeyError. -/

/-- A Python exception surfaced by the embedded code. -/
inductive PyError where
  | keyError (key : String)
  | ioError
  | jsonDecodeError
deriving DecidableEq

/-- The GEOMETRY sub-dictionary. -/
structure Geometry where
  length_m : Option Rat
  width_m : Option Rat
  height_m : Option Rat

/-- The MATERIAL sub-dictionary. -/
structure Material where
  name : Option String
  youngs_modulus_pa : Option Rat
  poisson_ratio : Option Rat

/-- The LOADING sub-dictionary. -/
structure Loading where
  tip_load_n : Option Rat

/-- The DISCRETIZATION sub-dictionary. -/
structure Discretization where
  elements_length : Option Nat
  elements_width : Option Nat
  elements_height : Option Nat

/-- The top-level configuration dictionary. -/
structure Config where
  MODEL_NAME : Option String
  TEST_TYPE : Option String
  GEOMETRY : Option Geometry
  MATERIAL : Option Material
  LOADING : Option Loading
  DISCRETIZATION : Option Discretization

/-! ## Events recorded by the embedded scripts -/

/-- The seed constraint argument of seedEdgeByNumber; the sources only
ever pass FIXED. -/
inductive SeedConstraint where
  | FIXED
deriving DecidableEq

/-- One call into the external CAE host scripting API, with the
arguments the sources pass.  Constant arguments that never vary
(THREE_D, DEFORMABLE_BODY, ON, HEX, STRUCTURED, ANALYSIS) are baked
into the constructor names. -/
inductive CAECall where
  | modelCreate (name : String)
  | constrainedSketch (name : String) (sheetSize : Rat)
  | sketchRectangle (point1 point2 : Rat × Rat)
  | partCreate (name : String)
  | baseSolidExtrude (depth : Rat)
  | materialCreate (name : String)
  | elastic (youngs_modulus poisson : Rat)
  | homogeneousSolidSection (name material : String)
  | sectionAssignment (sectionName : String)
  | instanceCreate (name partName : String)
  | staticStep (name previous : String)
  | facesFindAt (point : Rat × Rat × Rat)
  | verticesFindAt (point : Rat × Rat × Rat)
  | assemblySetFaces (name : String)
  | assemblySetVertices (name : String)
  | encastreBC (name createStepName setName : String)
  | concentratedForce (name createStepName setName : String) (cf3 : Rat)
  | setMeshControlsHexStructured
  | edgesFindAt (point : Rat × Rat × Rat)
  | seedEdgeByNumber (edges : List (Rat × Rat × Rat)) (number : Nat)
      (constraint : SeedConstraint)
  | generateMesh
  | jobCreate (name model : String)
deriving DecidableEq

/-- One line printed by the runner or the proof-of-concept script,
identified by its message shape and the interpolated values. -/
inductive PrintEvent where
  | meshPrecheckHeader
  | elementsLine (nl nw nh total : Nat)
  | nodesLine (total : Nat)
  | warnBang
  | warnNodeCountExceeds (total : Nat)
  | warnLearningEditionLimit
  | warnGenerateMeshWillFail
  | warnReduceElements
  | nodeCountWithinLimit (total : Nat)
  | dashedLine
  | modelCreatedMsg (name : String)
  | runScriptMsg
deriving DecidableEq

/-- The observable output of a successful run_cantilever_beam call:
the printed report and the sequence of CAE host API calls. -/
structure RunOutput where
  prints : List PrintEvent
  calls : List CAECall
deriving DecidableEq

/-! ## simulation_runner.py -/

namespace SimulationRunner

/-- Mesh precheck node count, simulation_runner.py line 46:
`total_nodes = (N_ELEMENTS_LENGTH + 1) * (N_ELEMENTS_WIDTH + 1) * (N_ELEMENTS_HEIGHT + 1)`. -/
def runner_total_nodes (nl nw nh : Nat) : Nat :=
  (nl + 1) * (nw + 1) * (nh + 1)

/-- Mesh precheck element count, simulation_runner.py line 47:
`total_elements = N_ELEMENTS_LENGTH * N_ELEMENTS_WIDTH * N_ELEMENTS_HEIGHT`. -/
def runner_total_elements (nl nw nh : Nat) : Nat :=
  nl * nw * nh

/-- The branch condition of the precheck, simulation_runner.py line 53:
`if total_nodes > 1000:` (the warning branch is taken). -/
def runner_precheck_warns (nl nw nh : Nat) : Bool :=
  1000 < runner_total_nodes nl nw nh

/-- The within_limit flag of the mesh precheck described in the spec:
true exactly when the else branch (line 60) is taken. -/
def runner_within_limit (nl nw nh : Nat) : Bool :=
  ! runner_precheck_warns nl nw nh

/-- The printed mesh precheck report, simulation_runner.py lines 49 to
62, with the branch condition made a parameter so that its effect can
be compared across both branch outcomes. -/
def runner_precheck_prints (warn : Bool) (nl nw nh : Nat) : List PrintEvent :=
  [.meshPrecheckHeader,
   .elementsLine nl nw nh (runner_total_elements nl nw nh),
   .nodesLine (runner_total_nodes nl nw nh)] ++
  (if warn then
    [.warnBang,
     .warnNodeCountExceeds (runner_total_nodes nl nw nh),
     .warnLearningEditionLimit,
     .warnGenerateMeshWillFail,
     .warnBang]
   else
    [.nodeCountWithinLimit (runner_total_nodes nl nw nh)]) ++
  [.dashedLine]

/-- The four edges.findAt coordinates for the length-aligned edges,
simulation_runner.py lines 118 to 121 (W2 = W/2, H2 = H/2, L2 = L/2). -/
def lengthEdgeCoords (W H L : Rat) : List (Rat × Rat × Rat) :=
  [(W/2, H/2, L/2), (-(W/2), H/2, L/2), (-(W/2), -(H/2), L/2), (W/2, -(H/2), L/2)]

/-- The four edges.findAt coordinates for the width-aligned edges,
simulation_runner.py lines 124 to 127. -/
def widthEdgeCoords (W H L : Rat) : List (Rat × Rat × Rat) :=
  [(0, H/2, 0), (0, -(H/2), 0), (0, H/2, L), (0, -(H/2), L)]

/-- The four edges.findAt coordinates for the height-aligned edges,
simulation_runner.py lines 130 to 133. -/
def heightEdgeCoords (W H L : Rat) : List (Rat × Rat × Rat) :=
  [(W/2, 0, 0), (-(W/2), 0, 0), (W/2, 0, L), (-(W/2), 0, L)]

/-- The sequence of CAE host API calls issued by run_cantilever_beam,
simulation_runner.py lines 67 to 145, sections 3 to 7 of the script,
in source order. -/
def cantilever_calls (mn mat_name : String) (L W H E nu F : Rat)
    (nl nw nh : Nat) : List CAECall :=
  [.modelCreate mn,
   .constrainedSketch "beamProfile" 1,
   .sketchRectangle (-(W/2), -(H/2)) (W/2, H/2),
   .partCreate "Beam",
   .baseSolidExtrude L,
   .materialCreate mat_name,
   .elastic E nu,
   .homogeneousSolidSection "BeamSection" mat_name,
   .sectionAssignment "BeamSection",
   .instanceCreate "BeamInstance" "Beam",
   .staticStep "Step-1" "Initial",
   .facesFindAt (0, 0, 0),
   .verticesFindAt (W/2, H/2, L),
   .assemblySetFaces "Set-FixedEnd",
   .assemblySetVertices "Set-LoadPoint",
   .encastreBC "Fixed" "Initial" "Set-FixedEnd",
   .concentratedForce "TipLoad" "Step-1" "Set-LoadPoint" (-F),
   .setMeshControlsHexStructured] ++
  (lengthEdgeCoords W H L).map .edgesFindAt ++
  (widthEdgeCoords W H L).map .edgesFindAt ++
  (heightEdgeCoords W H L).map .edgesFindAt ++
  [.seedEdgeByNumber (lengthEdgeCoords W H L) nl .FIXED,
   .seedEdgeByNumber (widthEdgeCoords W H L) nw .FIXED,
   .seedEdgeByNumber (heightEdgeCoords W H L) nh .FIXED,
   .generateMesh,
   .jobCreate mn mn]

/-- The body of run_cantilever_beam after parameter extraction, with
the precheck branch condition a parameter: the precheck only selects
between the two print blocks, while the CAE call sequence is built
from the configuration values alone. -/
def run_cantilever_beam_flag (warn : Bool) (mn mat_name : String)
    (L W H E nu F : Rat) (nl nw nh : Nat) : RunOutput :=
  { prints := runner_precheck_prints warn nl nw nh ++
      [.modelCreatedMsg mn, .runScriptMsg],
    calls := cantilever_calls mn mat_name L W H E nu F nl nw nh }

/-- run_cantilever_beam, simulation_runner.py lines 14 to 152.
Parameter extraction (lines 21 to 43) performs the dictionary lookups
in source order and precedes every print and every CAE call, so a
missing key yields a KeyError with nothing printed and no call made.
On success the precheck branch condition is the line 53 comparison. -/
def run_cantilever_beam (config : Config) : Except PyError RunOutput :=
  match config.MODEL_NAME with
  | none => .error (.keyError "MODEL_NAME")
  | some mn =>
  match config.GEOMETRY with
  | none => .error (.keyError "GEOMETRY")
  | some geom =>
  match geom.length_m with
  | none => .error (.keyError "length_m")
  | some L =>
  match geom.width_m with
  | none => .error (.keyError "width_m")
  | some W =>
  match geom.height_m with
  | none => .error (.keyError "height_m")
  | some H =>
  match config.MATERIAL with
  | none => .error (.keyError "MATERIAL")
  | some mat =>
  match mat.name with
  | none => .error (.keyError "name")
  | some mat_name =>
  match mat.youngs_modulus_pa with
  | none => .error (.keyError "youngs_modulus_pa")
  | some E =>
  match mat.poisson_ratio with
  | none => .error (.keyError "poisson_ratio")
  | some nu =>
  match config.LOADING with
  | none => .error (.keyError "LOADING")
  | some load =>
  match load.tip_load_n with
  | none => .error (.keyError "tip_load_n")
  | some F =>
  match config.DISCRETIZATION with
  | none => .error (.keyError "DISCRETIZATION")
  | some disc =>
  match disc.elements_length with
  | none => .error (.keyError "elements_length")
  | some nl =>
  match disc.elements_width with
  | none => .error (.keyError "elements_width")
  | some nw =>
  match disc.elements_height with
  | none => .error (.keyError "elements_height")
  | some nh =>
  .ok (run_cantilever_beam_flag (runner_precheck_warns nl nw nh)
        mn mat_name L W H E nu F nl nw nh)

/-- The fixed configuration file name, simulation_runner.py line 160:
`CONFIG_FILE = 'config.json'`. -/
def CONFIG_FILE : String := "config.json"

/-- One observable action of the driver main block
(simulation_runner.py lines 158 to 186). -/
inductive DriverEvent where
  | readingConfigMsg (path : String)
  | openFile (path : String)
  | fileNotFoundMsg (path : String)
  | executingCantileverMsg
  | taylorImpactStubMsg
  | unknownTestTypeMsg (test_type : Option String)
  | ranCantilever (out : RunOutput)
  | scriptFinished
deriving DecidableEq

/-- The outcome of reading and JSON-decoding the configuration file,
an input of the driver main block supplied by the file system. -/
inductive ReadResult where
  | ioError
  | decodeError
  | ok (config : Config)

/-- The driver main block, simulation_runner.py lines 158 to 186.  The
env argument models the process environment the driver was started
with (including any variables set by the wrapper); the source never
consults it, and the file it opens is the fixed CONFIG_FILE.  Dispatch
uses `config.get` so an absent TEST_TYPE yields none rather than a
KeyError and falls through to the unknown-type branch. -/
def driver_main (env : String → Option String) (read : ReadResult) :
    List DriverEvent × Except PyError Unit :=
  let pre : List DriverEvent :=
    [.readingConfigMsg CONFIG_FILE, .openFile CONFIG_FILE]
  match read with
  | .ioError => (pre ++ [.fileNotFoundMsg CONFIG_FILE], .error .ioError)
  | .decodeError => (pre, .error .jsonDecodeError)
  | .ok config =>
    match config.TEST_TYPE with
    | some "CantileverBeam" =>
      match run_cantilever_beam config with
      | .error e => (pre ++ [.executingCantileverMsg], .error e)
      | .ok out =>
        (pre ++ [.executingCantileverMsg, .ranCantilever out,
                 .scriptFinished], .ok ())
    | some "TaylorImpact" =>
      (pre ++ [.taylorImpactStubMsg, .scriptFinished], .ok ())
    | t => (pre ++ [.unknownTestTypeMsg t, .scriptFinished], .ok ())

/-- Whether a driver event is an attempt to open the named file. -/
def opensFile (path : String) : DriverEvent → Bool
  | .openFile q => q == path
  | _ => false

end SimulationRunner

/-! ## agent.py: save_config_and_run_abaqus -/

namespace Agent

/-- A decoded JSON value, the result of a successful json.loads. -/
inductive JsonVal where
  | null
  | jbool (b : Bool)
  | jnum (q : Rat)
  | jstr (s : String)
  | jarr (items : List JsonVal)
  | jobj (fields : List (String × JsonVal))

/-- Python dictionary lookup on a decoded JSON value; none models a
KeyError (key absent) or a TypeError (value not a dictionary). -/
def jsonLookup (v : JsonVal) (key : String) : Option JsonVal :=
  match v with
  | .jobj fields => (fields.find? (fun p => p.1 == key)).map (fun p => p.2)
  | _ => none

/-- The outcome of the subprocess.run call on the external CAE host,
an input supplied by the operating system. -/
inductive ProcOutcome where
  | success
  | calledProcessError
  | fileNotFound

/-- The external collaborators of save_config_and_run_abaqus: the
json.loads decoder, whether the config file write raises IOError, and
the subprocess outcome. -/
structure World where
  loads : String → Option JsonVal
  writeFails : Bool
  procOutcome : ProcOutcome

/-- One observable action of save_config_and_run_abaqus. -/
inductive AgentEvent where
  | printConfigGenerated (v : JsonVal)
  | printValidationFailed (raw : String)
  | fileWrite (path : String) (v : JsonVal)
  | printSavedMsg (path : String)
  | printSaveErrorMsg
  | subprocessRun (command : List String) (runnerScript : String)
      (envAbaqusConfigPath : String)
  | printRunSuccessfulMsg (model_name : JsonVal)
  | printRunFailedMsg
  | printCmdNotFoundMsg

/-- Whether an agent event writes the configuration file. -/
def isFileWriteEv : AgentEvent → Bool
  | .fileWrite _ _ => true
  | _ => false

/-- Whether an agent event invokes the external CAE subprocess. -/
def isSubprocEv : AgentEvent → Bool
  | .subprocessRun _ _ _ => true
  | _ => false

/-- Whether an agent event invokes the external CAE subprocess with
the ABAQUS_CONFIG_PATH environment variable set to the given path. -/
def isSubprocWithEnvPath (path : String) : AgentEvent → Bool
  | .subprocessRun _ _ p => p == path
  | _ => false

/-- save_config_and_run_abaqus, agent.py lines 156 to 213.  Step 3
decodes the JSON string; on failure the raw text is reported and the
function returns with no further action.  Step 4 writes the config
file, then invokes the external CAE host via subprocess.run with a
copy of the environment in which ABAQUS_CONFIG_PATH is set to the
config path (line 186).  On subprocess success the final message
dereferences MODEL_NAME in the decoded config, which raises a lookup
error if absent. -/
def save_config_and_run_abaqus (w : World)
    (json_string config_path runner_script_path : String) :
    List AgentEvent × Except PyError Unit :=
  match w.loads json_string with
  | none => ([.printValidationFailed json_string], .ok ())
  | some config_data =>
    if w.writeFails then
      ([.printConfigGenerated config_data, .printSaveErrorMsg], .ok ())
    else
      let pre : List AgentEvent :=
        [.printConfigGenerated config_data,
         .fileWrite config_path config_data,
         .printSavedMsg config_path,
         .subprocessRun ["abaqus", "cae", "-script"] runner_script_path
           config_path]
      match w.procOutcome with
      | .success =>
        match jsonLookup config_data "MODEL_NAME" with
        | some v => (pre ++ [.printRunSuccessfulMsg v], .ok ())
        | none => (pre, .error (.keyError "MODEL_NAME"))
      | .calledProcessError => (pre ++ [.printRunFailedMsg], .ok ())
      | .fileNotFound => (pre ++ [.printCmdNotFoundMsg], .ok ())

end Agent

/-! ## cantilever_poc.py -/

namespace CantileverPoc

/-- cantilever_poc.py line 12. -/
def MODEL_NAME : String := "Cantilever_PoC_3"

/-- cantilever_poc.py line 13 (meters). -/
def PART_LENGTH : Rat := 1

/-- cantilever_poc.py line 14 (meters). -/
def PART_WIDTH : Rat := 1/10

/-- cantilever_poc.py line 15 (meters). -/
def PART_HEIGHT : Rat := 1/10

/-- cantilever_poc.py line 16 (Pascals, 200.0E9). -/
def YOUNGS_MODULUS : Rat := 200000000000

/-- cantilever_poc.py line 17. -/
def POISSON_RATIO : Rat := 3/10

/-- cantilever_poc.py line 18 (Newtons). -/
def TIP_LOAD : Rat := 1000

/-- cantilever_poc.py line 22. -/
def N_ELEMENTS_LENGTH : Nat := 20

/-- cantilever_poc.py line 23. -/
def N_ELEMENTS_WIDTH : Nat := 4

/-- cantilever_poc.py line 24. -/
def N_ELEMENTS_HEIGHT : Nat := 4

/-- cantilever_poc.py line 28. -/
def total_nodes : Nat :=
  (N_ELEMENTS_LENGTH + 1) * (N_ELEMENTS_WIDTH + 1) * (N_ELEMENTS_HEIGHT + 1)

/-- cantilever_poc.py line 29. -/
def total_elements : Nat :=
  N_ELEMENTS_LENGTH * N_ELEMENTS_WIDTH * N_ELEMENTS_HEIGHT

/-- Everything the proof-of-concept script prints, cantilever_poc.py
lines 31 to 44 (the precheck report, with the extra reduce-elements
line in the warning branch) and lines 138 to 139 (final messages). -/
def script_prints : List PrintEvent :=
  [.meshPrecheckHeader,
   .elementsLine N_ELEMENTS_LENGTH N_ELEMENTS_WIDTH N_ELEMENTS_HEIGHT
     total_elements,
   .nodesLine total_nodes] ++
  (if 1000 < total_nodes then
    [.warnBang,
     .warnNodeCountExceeds total_nodes,
     .warnLearningEditionLimit,
     .warnGenerateMeshWillFail,
     .warnReduceElements,
     .warnBang]
   else
    [.nodeCountWithinLimit total_nodes]) ++
  [.dashedLine, .modelCreatedMsg MODEL_NAME, .runScriptMsg]

/-- The sequence of CAE host API calls issued by the proof-of-concept
script, cantilever_poc.py lines 50 to 132, in source order, with the
hardcoded parameter values (W2 = PART_WIDTH/2, H2 = PART_HEIGHT/2,
L2 = PART_LENGTH/2). -/
def script_calls : List CAECall :=
  [.modelCreate MODEL_NAME,
   .constrainedSketch "beamProfile" 1,
   .sketchRectangle (-(PART_WIDTH/2), -(PART_HEIGHT/2))
     (PART_WIDTH/2, PART_HEIGHT/2),
   .partCreate "Beam",
   .baseSolidExtrude PART_LENGTH,
   .materialCreate "Steel",
   .elastic YOUNGS_MODULUS POISSON_RATIO,
   .homogeneousSolidSection "BeamSection" "Steel",
   .sectionAssignment "BeamSection",
   .instanceCreate "BeamInstance" "Beam",
   .staticStep "Step-1" "Initial",
   .facesFindAt (0, 0, 0),
   .verticesFindAt (PART_WIDTH/2, PART_HEIGHT/2, PART_LENGTH),
   .assemblySetFaces "Set-FixedEnd",
   .assemblySetVertices "Set-LoadPoint",
   .encastreBC "Fixed" "Initial" "Set-FixedEnd",
   .concentratedForce "TipLoad" "Step-1" "Set-LoadPoint" (-TIP_LOAD),
   .setMeshControlsHexStructured,
   .edgesFindAt (PART_WIDTH/2, PART_HEIGHT/2, PART_LENGTH/2),
   .edgesFindAt (-(PART_WIDTH/2), PART_HEIGHT/2, PART_LENGTH/2),
   .edgesFindAt (-(PART_WIDTH/2), -(PART_HEIGHT/2), PART_LENGTH/2),
   .edgesFindAt (PART_WIDTH/2, -(PART_HEIGHT/2), PART_LENGTH/2),
   .edgesFindAt (0, PART_HEIGHT/2, 0),
   .edgesFindAt (0, -(PART_HEIGHT/2), 0),
   .edgesFindAt (0, PART_HEIGHT/2, PART_LENGTH),
   .edgesFindAt (0, -(PART_HEIGHT/2), PART_LENGTH),
   .edgesFindAt (PART_WIDTH/2, 0, 0),
   .edgesFindAt (-(PART_WIDTH/2), 0, 0),
   .edgesFindAt (PART_WIDTH/2, 0, PART_LENGTH),
   .edgesFindAt (-(PART_WIDTH/2), 0, PART_LENGTH),
   .seedEdgeByNumber
     [(PART_WIDTH/2, PART_HEIGHT/2, PART_LENGTH/2),
      (-(PART_WIDTH/2), PART_HEIGHT/2, PART_LENGTH/2),
      (-(PART_WIDTH/2), -(PART_HEIGHT/2), PART_LENGTH/2),
      (PART_WIDTH/2, -(PART_HEIGHT/2), PART_LENGTH/2)]
     N_ELEMENTS_LENGTH .FIXED,
   .seedEdgeByNumber
     [(0, PART_HEIGHT/2, 0),
      (0, -(PART_HEIGHT/2), 0),
      (0, PART_HEIGHT/2, PART_LENGTH),
      (0, -(PART_HEIGHT/2), PART_LENGTH)]
     N_ELEMENTS_WIDTH .FIXED,
   .seedEdgeByNumber
     [(PART_WIDTH/2, 0, 0),
      (-(PART_WIDTH/2), 0, 0),
      (PART_WIDTH/2, 0, PART_LENGTH),
      (-(PART_WIDTH/2), 0, PART_LENGTH)]
     N_ELEMENTS_HEIGHT .FIXED,
   .generateMesh,
   .jobCreate MODEL_NAME MODEL_NAME]

end CantileverPoc

/-! ## Spec-side geometry for claim C8

The spec describes the extruded part as the box
[-W/2, W/2] x [-H/2, H/2] x [0, L] and asserts that the twelve
findAt sample coordinates of the driver locate its twelve edges,
grouped four by four by direction.  These definitions formalise the
box edges from the words of the spec, to be compared with the
coordinates taken from the source. -/

/-- The direction a box edge runs along. -/
inductive EdgeDir where
  | alongLength
  | alongWidth
  | alongHeight
deriving DecidableEq

/-- One edge of the box, identified by its direction and the two fixed
coordinates (the remaining coordinate ranges over the side length). -/
inductive BoxEdge where
  | lengthAligned (x0 y0 : Rat)
  | widthAligned (y0 z0 : Rat)
  | heightAligned (x0 z0 : Rat)
deriving DecidableEq

/-- The direction of a box edge. -/
def BoxEdge.dir : BoxEdge → EdgeDir
  | .lengthAligned _ _ => .alongLength
  | .widthAligned _ _ => .alongWidth
  | .heightAligned _ _ => .alongHeight

/-- Membership of a point in a box edge of the box
[-W/2, W/2] x [-H/2, H/2] x [0, L]. -/
def BoxEdge.onEdge (W H L : Rat) : BoxEdge → Rat × Rat × Rat → Prop
  | .lengthAligned x0 y0, p =>
      p.1 = x0 ∧ p.2.1 = y0 ∧ 0 ≤ p.2.2 ∧ p.2.2 ≤ L
  | .widthAligned y0 z0, p =>
      -(W/2) ≤ p.1 ∧ p.1 ≤ W/2 ∧ p.2.1 = y0 ∧ p.2.2 = z0
  | .heightAligned x0 z0, p =>
      p.1 = x0 ∧ -(H/2) ≤ p.2.1 ∧ p.2.1 ≤ H/2 ∧ p.2.2 = z0

/-- The twelve edges of the box, in the order matching the order in
which the driver samples them: four length-aligned, four
width-aligned, four height-aligned. -/
def boxEdges (W H L : Rat) : List BoxEdge :=
  [.lengthAligned (W/2) (H/2), .lengthAligned (-(W/2)) (H/2),
   .lengthAligned (-(W/2)) (-(H/2)), .lengthAligned (W/2) (-(H/2)),
   .widthAligned (H/2) 0, .widthAligned (-(H/2)) 0,
   .widthAligned (H/2) L, .widthAligned (-(H/2)) L,
   .heightAligned (W/2) 0, .heightAligned (-(W/2)) 0,
   .heightAligned (W/2) L, .heightAligned (-(W/2)) L]

/-- The twelve findAt sample coordinates of the driver, in source
order (simulation_runner.py lines 118 to 133). -/
def sampleCoords (W H L : Rat) : List (Rat × Rat × Rat) :=
  SimulationRunner.lengthEdgeCoords W H L ++
  SimulationRunner.widthEdgeCoords W H L ++
  SimulationRunner.heightEdgeCoords W H L

/-- The i-th sample coordinate, indexed 0 to 11 in source order. -/
def sampleCoord (W H L : Rat) : Nat → Rat × Rat × Rat
  | 0 => (W/2, H/2, L/2)
  | 1 => (-(W/2), H/2, L/2)
  | 2 => (-(W/2), -(H/2), L/2)
  | 3 => (W/2, -(H/2), L/2)
  | 4 => (0, H/2, 0)
  | 5 => (0, -(H/2), 0)
  | 6 => (0, H/2, L)
  | 7 => (0, -(H/2), L)
  | 8 => (W/2, 0, 0)
  | 9 => (-(W/2), 0, 0)
  | 10 => (W/2, 0, L)
  | _ => (-(W/2), 0, L)

/-- The i-th box edge, indexed 0 to 11 matching sampleCoord. -/
def boxEdgeAt (W H L : Rat) : Nat → BoxEdge
  | 0 => .lengthAligned (W/2) (H/2)
  | 1 => .lengthAligned (-(W/2)) (H/2)
  | 2 => .lengthAligned (-(W/2)) (-(H/2))
  | 3 => .lengthAligned (W/2) (-(H/2))
  | 4 => .widthAligned (H/2) 0
  | 5 => .widthAligned (-(H/2)) 0
  | 6 => .widthAligned (H/2) L
  | 7 => .widthAligned (-(H/2)) L
  | 8 => .heightAligned (W/2) 0
  | 9 => .heightAligned (-(W/2)) 0
  | 10 => .heightAligned (W/2) L
  | _ => .heightAligned (-(W/2)) L

/-- The content of claim C8 at a given positive geometry: the indexed
families agree with the source coordinate lists and the box edge
list; each of the twelve sample coordinates lies on its box edge and
on no other box edge; the twelve edges fall into three groups of four
by direction; and the driver seeds the three coordinate groups with
the three discretization counts under a fixed-count constraint. -/
def edgePartitionProp (W H L : Rat) : Prop :=
  sampleCoords W H L = (List.range 12).map (sampleCoord W H L) ∧
  boxEdges W H L = (List.range 12).map (boxEdgeAt W H L) ∧
  (∀ i : Fin 12,
    (boxEdgeAt W H L (i : Nat)).onEdge W H L (sampleCoord W H L (i : Nat))) ∧
  (∀ i j : Fin 12, i ≠ j →
    ¬ (boxEdgeAt W H L (j : Nat)).onEdge W H L (sampleCoord W H L (i : Nat))) ∧
  (boxEdges W H L).map BoxEdge.dir =
    List.replicate 4 .alongLength ++ List.replicate 4 .alongWidth ++
    List.replicate 4 .alongHeight ∧
  (∀ (mn mat_name : String) (E nu F : Rat) (nl nw nh : Nat),
    CAECall.seedEdgeByNumber (SimulationRunner.lengthEdgeCoords W H L)
      nl .FIXED ∈
      SimulationRunner.cantilever_calls mn mat_name L W H E nu F nl nw nh ∧
    CAECall.seedEdgeByNumber (SimulationRunner.widthEdgeCoords W H L)
      nw .FIXED ∈
      SimulationRunner.cantilever_calls mn mat_name L W H E nu F nl nw nh ∧
    CAECall.seedEdgeByNumber (SimulationRunner.heightEdgeCoords W H L)
      nh .FIXED ∈
      SimulationRunner.cantilever_calls mn mat_name L W H E nu F nl nw nh)

/-! ## Claim-support definitions -/

/-- The configuration whose values match the hardcoded parameters of
cantilever_poc.py (geometry 1.0 by 0.1 by 0.1, Steel with modulus
200e9 and ratio 0.3, tip load 1000.0, discretization 20 by 4 by 4),
with the model name a parameter (claim C10). -/
def poc_equiv_config (mn : String) : Config :=
  { MODEL_NAME := some mn,
    TEST_TYPE := some "CantileverBeam",
    GEOMETRY := some { length_m := some 1, width_m := some (1/10),
                       height_m := some (1/10) },
    MATERIAL := some { name := some "Steel",
                       youngs_modulus_pa := some 200000000000,
                       poisson_ratio := some (3/10) },
    LOADING := some { tip_load_n := some 1000 },
    DISCRETIZATION := some { elements_length := some 20,
                             elements_width := some 4,
                             elements_height := some 4 } }

/-- Rename the model and job of a CAE call sequence: the only
difference claim C10 allows between the proof-of-concept script and
the config-driven runner. -/
def rename_model_call (mn : String) : CAECall → CAECall
  | .modelCreate _ => .modelCreate mn
  | .jobCreate _ _ => .jobCreate mn mn
  | c => c

/-- The content of claim C1 for given discretization counts and
arbitrary remaining run parameters: the precheck totals follow the
two product formulas, those totals are the ones the run report
prints, and the proof-of-concept script computes and prints its
totals by the same formulas. -/
def meshCountsProp (nl nw nh : Nat) (warn : Bool) (mn mat_name : String)
    (L W H E nu F : Rat) : Prop :=
  SimulationRunner.runner_total_nodes nl nw nh = (nl+1) * (nw+1) * (nh+1) ∧
  SimulationRunner.runner_total_elements nl nw nh = nl * nw * nh ∧
  PrintEvent.nodesLine (SimulationRunner.runner_total_nodes nl nw nh) ∈
    (SimulationRunner.run_cantilever_beam_flag warn mn mat_name
      L W H E nu F nl nw nh).prints ∧
  PrintEvent.elementsLine nl nw nh
      (SimulationRunner.runner_total_elements nl nw nh) ∈
    (SimulationRunner.run_cantilever_beam_flag warn mn mat_name
      L W H E nu F nl nw nh).prints ∧
  CantileverPoc.total_nodes =
    (CantileverPoc.N_ELEMENTS_LENGTH + 1) *
    (CantileverPoc.N_ELEMENTS_WIDTH + 1) *
    (CantileverPoc.N_ELEMENTS_HEIGHT + 1) ∧
  CantileverPoc.total_elements =
    CantileverPoc.N_ELEMENTS_LENGTH * CantileverPoc.N_ELEMENTS_WIDTH *
    CantileverPoc.N_ELEMENTS_HEIGHT ∧
  PrintEvent.nodesLine CantileverPoc.total_nodes ∈
    CantileverPoc.script_prints ∧
  PrintEvent.elementsLine CantileverPoc.N_ELEMENTS_LENGTH
      CantileverPoc.N_ELEMENTS_WIDTH CantileverPoc.N_ELEMENTS_HEIGHT
      CantileverPoc.total_elements ∈
    CantileverPoc.script_prints

/-- The content of claim C7 as amended: the wrapper invokes the CAE
subprocess with ABAQUS_CONFIG_PATH pointing at the saved config path,
while the driver ignores its environment entirely and always opens
the fixed file name config.json. -/
def wrapperEnvDriverFileProp (w : Agent.World)
    (json_string config_path runner_script_path : String) : Prop :=
  (Agent.save_config_and_run_abaqus w json_string config_path
      runner_script_path).1.any
    (Agent.isSubprocWithEnvPath config_path) = true ∧
  (∀ (env env' : String → Option String) (r : SimulationRunner.ReadResult),
    SimulationRunner.driver_main env r = SimulationRunner.driver_main env' r) ∧
  (∀ (env : String → Option String) (r : SimulationRunner.ReadResult),
    (SimulationRunner.driver_main env r).1.any
      (SimulationRunner.opensFile "config.json") = true) ∧
  SimulationRunner.CONFIG_FILE = "config.json"

/-- A sample malformed-input world: json.loads always fails
(claim C5 witness). -/
def badJsonWorld : Agent.World :=
  { loads := fun _ => none, writeFails := false, procOutcome := .success }

/-- A sample decoded configuration value. -/
def sampleJsonConfig : Agent.JsonVal :=
  .jobj [("MODEL_NAME", .jstr "Beam_Test")]

/-- A sample well-behaved world: json.loads always succeeds with
sampleJsonConfig, the file write succeeds, the subprocess succeeds
(claim C7 witness). -/
def goodJsonWorld : Agent.World :=
  { loads := fun _ => some sampleJsonConfig, writeFails := false,
    procOutcome := .success }

/-- An environment in which ABAQUS_CONFIG_PATH names a file other than
config.json (claim C7 counterexample). -/
def env_other : String → Option String :=
  fun key => if key == "ABAQUS_CONFIG_PATH"
             then some "/tmp/other.json" else none

/-- A configuration with no keys at all (claims C7 and C9 witnesses). -/
def emptyConfig : Config :=
  { MODEL_NAME := none, TEST_TYPE := none, GEOMETRY := none,
    MATERIAL := none, LOADING := none, DISCRETIZATION := none }

/-- A configuration with every field before DISCRETIZATION present and
DISCRETIZATION absent (claim C6 witness). -/
def noDiscConfig : Config :=
  { MODEL_NAME := some "Beam_Test",
    TEST_TYPE := some "CantileverBeam",
    GEOMETRY := some { length_m := some 1, width_m := some (1/10),
                       height_m := some (1/10) },
    MATERIAL := some { name := some "Steel",
                       youngs_modulus_pa := some 200000000000,
                       poisson_ratio := some (3/10) },
    LOADING := some { tip_load_n := some 1000 },
    DISCRETIZATION := none }

/-- The response string of the claim C4 counterexample: a single
letter followed by a trailing space. -/
def c4CounterexampleInput : List Char := "a ".toList

/-- The response string of the claim C4 witness: a single letter. -/
def c4WitnessInput : List Char := "a".toList

/-! ## Claim theorems -/

/-- C1: for every positive discretization (L, W, H), the mesh sizing
precheck computes total_nodes = (L+1)(W+1)(H+1) and
total_elements = LWH, both in the config-driven runner (whose run
report prints exactly those totals) and in the hardcoded
proof-of-concept script. -/
theorem claim_c1_mesh_precheck_formulas (nl nw nh : Nat)
    (h1 : 0 < nl) (h2 : 0 < nw) (h3 : 0 < nh) (warn : Bool)
    (mn mat_name : String) (L W H E nu F : Rat) :
    meshCountsProp nl nw nh warn mn mat_name L W H E nu F := by
  refine ⟨rfl, rfl, ?_, ?_, rfl, rfl, ?_, ?_⟩ <;>
    simp [SimulationRunner.run_cantilever_beam_flag,
      SimulationRunner.runner_precheck_prints, CantileverPoc.script_prints]

/-- C1 witness: the theorem applied at discretization 10 by 4 by 4. -/
theorem claim_c1_witness :
    0 < 10 ∧ 0 < 4 ∧
    meshCountsProp 10 4 4 false "Beam_Test" "Steel" 1 (1/10) (1/10)
      200000000000 (3/10) 1000 :=
  ⟨by norm_num, by norm_num,
   claim_c1_mesh_precheck_formulas 10 4 4 (by norm_num) (by norm_num)
     (by norm_num) false "Beam_Test" "Steel" 1 (1/10) (1/10)
     200000000000 (3/10) 1000⟩

/-- C2: the precheck within_limit flag is true exactly when
total_nodes is at most 1000; at (10,4,4) the node count is 275 and
within the limit, at (20,4,4) it is 525 and within the limit, and at
(30,10,10) it is 3751, the limit is exceeded, and the over-limit
warning branch is taken. -/
theorem claim_c2_within_limit :
    (∀ nl nw nh : Nat,
      SimulationRunner.runner_within_limit nl nw nh = true ↔
        SimulationRunner.runner_total_nodes nl nw nh ≤ 1000) ∧
    SimulationRunner.runner_total_nodes 10 4 4 = 275 ∧
    SimulationRunner.runner_within_limit 10 4 4 = true ∧
    SimulationRunner.runner_total_nodes 20 4 4 = 525 ∧
    SimulationRunner.runner_within_limit 20 4 4 = true ∧
    SimulationRunner.runner_total_nodes 30 10 10 = 3751 ∧
    SimulationRunner.runner_precheck_warns 30 10 10 = true ∧
    PrintEvent.warnNodeCountExceeds 3751 ∈
      SimulationRunner.runner_precheck_prints
        (SimulationRunner.runner_precheck_warns 30 10 10) 30 10 10 := by
  refine ⟨?_, by decide, by decide, by decide, by decide, by decide,
    by decide, by decide⟩
  intro nl nw nh
  simp [SimulationRunner.runner_within_limit,
    SimulationRunner.runner_precheck_warns, Nat.not_lt]

/-- C3: the 1000-node limit is advisory in the driver: the CAE call
sequence of run_cantilever_beam is the same whichever way the
precheck branch goes, and equals the call sequence built from the
configuration values alone; the branch only selects between print
blocks. -/
theorem claim_c3_precheck_advisory (warn warn' : Bool)
    (mn mat_name : String) (L W H E nu F : Rat) (nl nw nh : Nat) :
    (SimulationRunner.run_cantilever_beam_flag warn mn mat_name
        L W H E nu F nl nw nh).calls =
      (SimulationRunner.run_cantilever_beam_flag warn' mn mat_name
        L W H E nu F nl nw nh).calls ∧
    (SimulationRunner.run_cantilever_beam_flag warn mn mat_name
        L W H E nu F nl nw nh).calls =
      SimulationRunner.cantilever_calls mn mat_name L W H E nu F nl nw nh :=
  ⟨rfl, rfl⟩

/-- C10: on the configuration matching the hardcoded parameters of the
proof-of-concept script, the runner issues exactly the call sequence
of the script, with the model and job name renamed from
Cantilever_PoC_3 to the config model name; with the name equal to
Cantilever_PoC_3 the two sequences are identical. -/
theorem claim_c10_poc_runner_equiv (mn : String) :
    (SimulationRunner.run_cantilever_beam (poc_equiv_config mn)).map
        (fun o => o.calls) =
      .ok (CantileverPoc.script_calls.map (rename_model_call mn)) ∧
    (SimulationRunner.run_cantilever_beam
        (poc_equiv_config CantileverPoc.MODEL_NAME)).map
        (fun o => o.calls) =
      .ok CantileverPoc.script_calls := by
  constructor
  · simp [Except.map, SimulationRunner.run_cantilever_beam, poc_equiv_config,
      SimulationRunner.run_cantilever_beam_flag,
      SimulationRunner.cantilever_calls, CantileverPoc.script_calls,
      rename_model_call, SimulationRunner.lengthEdgeCoords,
      SimulationRunner.widthEdgeCoords, SimulationRunner.heightEdgeCoords,
      CantileverPoc.MODEL_NAME, CantileverPoc.PART_LENGTH,
      CantileverPoc.PART_WIDTH, CantileverPoc.PART_HEIGHT,
      CantileverPoc.YOUNGS_MODULUS, CantileverPoc.POISSON_RATIO,
      CantileverPoc.TIP_LOAD, CantileverPoc.N_ELEMENTS_LENGTH,
      CantileverPoc.N_ELEMENTS_WIDTH, CantileverPoc.N_ELEMENTS_HEIGHT]
  · rfl

/-- C5: on any input string that json.loads cannot decode,
save_config_and_run_abaqus reports the raw offending text and returns
at once, with no config file write and no CAE subprocess invocation;
and whenever a config file write appears in its trace, the JSON
decode succeeded. -/
theorem claim_c5_abort_on_malformed_json (w : Agent.World)
    (json_string config_path runner_script_path : String) :
    (w.loads json_string = none →
      Agent.save_config_and_run_abaqus w json_string config_path
          runner_script_path =
        ([.printValidationFailed json_string], .ok ())) ∧
    ((Agent.save_config_and_run_abaqus w json_string config_path
        runner_script_path).1.any Agent.isFileWriteEv = true →
      (w.loads json_string).isSome = true) := by
  constructor
  · intro h
    simp [Agent.save_config_and_run_abaqus, h]
  · intro h
    cases hl : w.loads json_string with
    | none =>
      rw [Agent.save_config_and_run_abaqus, hl] at h
      simp [Agent.isFileWriteEv] at h
    | some v => rfl

/-- C5 witness: the theorem applied to a world whose decoder always
fails, on a concrete input. -/
theorem claim_c5_witness :
    badJsonWorld.loads "not json" = none ∧
    Agent.save_config_and_run_abaqus badJsonWorld "not json"
        "config.json" "simulation_runner.py" =
      ([.printValidationFailed "not json"], .ok ()) :=
  ⟨rfl, (claim_c5_abort_on_malformed_json badJsonWorld "not json"
    "config.json" "simulation_runner.py").1 rfl⟩

/-- C6: a configuration containing MODEL_NAME, GEOMETRY, MATERIAL and
LOADING with all their subfields but no DISCRETIZATION key makes
run_cantilever_beam fail with a KeyError naming DISCRETIZATION: the
earlier lookups all succeed, and the failure occurs before the mesh
precheck report and before any CAE model-building call (the error
outcome carries no print and no call). -/
theorem claim_c6_missing_discretization (config : Config)
    (mn : String) (g : Geometry) (L W H : Rat) (m : Material)
    (mat_name : String) (E nu : Rat) (ld : Loading) (F : Rat)
    (hmn : config.MODEL_NAME = some mn)
    (hg : config.GEOMETRY = some g)
    (hgl : g.length_m = some L) (hgw : g.width_m = some W)
    (hgh : g.height_m = some H)
    (hm : config.MATERIAL = some m)
    (hmname : m.name = some mat_name)
    (hme : m.youngs_modulus_pa = some E)
    (hmnu : m.poisson_ratio = some nu)
    (hld : config.LOADING = some ld)
    (htl : ld.tip_load_n = some F)
    (hd : config.DISCRETIZATION = none) :
    SimulationRunner.run_cantilever_beam config =
      .error (.keyError "DISCRETIZATION") := by
  simp only [SimulationRunner.run_cantilever_beam, hmn, hg, hgl, hgw,
    hgh, hm, hmname, hme, hmnu, hld, htl, hd]

/-- C6 witness: the theorem applied to the concrete configuration that
has every earlier field and lacks DISCRETIZATION. -/
theorem claim_c6_witness :
    noDiscConfig.DISCRETIZATION = none ∧
    SimulationRunner.run_cantilever_beam noDiscConfig =
      .error (.keyError "DISCRETIZATION") :=
  ⟨rfl, claim_c6_missing_discretization noDiscConfig "Beam_Test"
    { length_m := some 1, width_m := some (1/10), height_m := some (1/10) }
    1 (1/10) (1/10)
    { name := some "Steel", youngs_modulus_pa := some 200000000000,
      poisson_ratio := some (3/10) }
    "Steel" 200000000000 (3/10)
    { tip_load_n := some 1000 } 1000
    rfl rfl rfl rfl rfl rfl rfl rfl rfl rfl rfl rfl⟩

/-- C9: a configuration with no TEST_TYPE key does not raise in the
driver dispatch: config.get yields none, which falls through to the
unknown-TEST_TYPE branch, no simulation work is performed, and the
script reaches its finishing message with a normal exit. -/
theorem claim_c9_missing_test_type (env : String → Option String)
    (config : Config) (h : config.TEST_TYPE = none) :
    SimulationRunner.driver_main env (.ok config) =
      ([.readingConfigMsg SimulationRunner.CONFIG_FILE,
        .openFile SimulationRunner.CONFIG_FILE,
        .unknownTestTypeMsg none, .scriptFinished], .ok ()) := by
  rw [SimulationRunner.driver_main, h]
  rfl

/-- C9 witness: the theorem applied to the configuration with no keys
at all. -/
theorem claim_c9_witness :
    emptyConfig.TEST_TYPE = none ∧
    SimulationRunner.driver_main env_other (.ok emptyConfig) =
      ([.readingConfigMsg SimulationRunner.CONFIG_FILE,
        .openFile SimulationRunner.CONFIG_FILE,
        .unknownTestTypeMsg none, .scriptFinished], .ok ()) :=
  ⟨rfl, claim_c9_missing_test_type env_other emptyConfig rfl⟩

/-- C7 counterexample: with ABAQUS_CONFIG_PATH set to
/tmp/other.json in the environment, the driver still opens
config.json and never opens the file the variable names, refuting the
statement that the driver determines which file to read from the
variable. -/
theorem claim_c7_counterexample :
    (SimulationRunner.driver_main env_other (.ok emptyConfig)).1.any
      (SimulationRunner.opensFile "config.json") = true ∧
    (SimulationRunner.driver_main env_other (.ok emptyConfig)).1.any
      (SimulationRunner.opensFile "/tmp/other.json") = false := by
  constructor <;> rfl

/-- C7 as amended: the wrapper invokes the CAE subprocess with the
ABAQUS_CONFIG_PATH environment variable pointing at the saved config
path, but the driver does not determine its input file from that
variable: it behaves identically under every environment and always
opens the fixed file name config.json. -/
theorem claim_c7_amended (w : Agent.World)
    (json_string config_path runner_script_path : String)
    (v : Agent.JsonVal)
    (hloads : w.loads json_string = some v)
    (hwrite : w.writeFails = false) :
    wrapperEnvDriverFileProp w json_string config_path
      runner_script_path := by
  refine ⟨?_, ?_, ?_, rfl⟩
  · rw [Agent.save_config_and_run_abaqus, hloads, hwrite]
    cases w.procOutcome with
    | success =>
      cases hj : Agent.jsonLookup v "MODEL_NAME" <;>
        simp [hj, Agent.isSubprocWithEnvPath]
    | calledProcessError => simp [Agent.isSubprocWithEnvPath]
    | fileNotFound => simp [Agent.isSubprocWithEnvPath]
  · intro env env' r
    rfl
  · intro env r
    cases r with
    | ioError => rfl
    | decodeError => rfl
    | ok config =>
      rw [SimulationRunner.driver_main]
      split
      · split <;> rfl
      · rfl
      · rfl

/-- C7 amended witness: the theorem applied to a world whose decode
and write succeed, on concrete paths. -/
theorem claim_c7_amended_witness :
    goodJsonWorld.loads "input" = some sampleJsonConfig ∧
    goodJsonWorld.writeFails = false ∧
    wrapperEnvDriverFileProp goodJsonWorld "input" "config.json"
      "simulation_runner.py" :=
  ⟨rfl, rfl, claim_c7_amended goodJsonWorld "input" "config.json"
    "simulation_runner.py" sampleJsonConfig rfl rfl⟩

/-- If dropping leading whitespace from a cons list leaves it
unchanged, its head is not whitespace. -/
lemma aux_cons_not_space (a : Char) (t : List Char)
    (h : (a :: t).dropWhile isPySpace = a :: t) : isPySpace a = false := by
  cases ha : isPySpace a with
  | false => rfl
  | true =>
    rw [List.dropWhile_cons, ha] at h
    simp only [if_true] at h
    have h1 : (t.dropWhile isPySpace).length ≤ t.length :=
      (List.dropWhile_sublist _).length_le
    rw [h] at h1
    simp at h1

/-- A string unchanged by pyStrip is unchanged by dropping leading
whitespace. -/
lemma aux_dropWhile_eq_self_of_pyStrip (s : List Char)
    (h : pyStrip s = s) : s.dropWhile isPySpace = s := by
  have hsub : s.dropWhile isPySpace <:+ s := List.dropWhile_suffix _
  refine hsub.eq_of_length_le ?_
  have h1 : ((s.dropWhile isPySpace).reverse.dropWhile isPySpace).length ≤
      (s.dropWhile isPySpace).reverse.length :=
    (List.dropWhile_sublist _).length_le
  calc s.length = (pyStrip s).length := by rw [h]
    _ = ((s.dropWhile isPySpace).reverse.dropWhile isPySpace).length := by
          simp [pyStrip]
    _ ≤ (s.dropWhile isPySpace).reverse.length := h1
    _ = (s.dropWhile isPySpace).length := by simp

/-- Appending the closing fence to a whitespace-free-ended,
whitespace-free-started string gives a pyStrip fixed point. -/
lemma aux_pyStrip_append_ticks (s : List Char)
    (h : s.dropWhile isPySpace = s) :
    pyStrip (s ++ fence_ticks) = s ++ fence_ticks := by
  have hA : (s ++ fence_ticks).dropWhile isPySpace = s ++ fence_ticks := by
    rw [List.dropWhile_append, h]
    cases s with
    | nil => decide
    | cons a t => rfl
  have hB : ((s ++ fence_ticks).reverse).dropWhile isPySpace =
      (s ++ fence_ticks).reverse := by
    rw [List.reverse_append]
    have hrev : fence_ticks.reverse = fence_ticks := by decide
    rw [hrev, List.dropWhile_append]
    have hft : fence_ticks.dropWhile isPySpace = fence_ticks := by decide
    rw [hft]
    rfl
  rw [pyStrip, hA, hB, List.reverse_reverse]

/-- C4 counterexample: post-processing the concrete response "a "
(letter then trailing space) wrapped in fences yields "a", while
post-processing the unwrapped response yields "a " unchanged, so the
two results differ. -/
theorem claim_c4_counterexample :
    gemini_postprocess (wrap_fences c4CounterexampleInput) ≠
      gemini_postprocess c4CounterexampleInput := by
  decide

/-- C4 as amended: for every response string that is already
whitespace-stripped, does not itself start with the opening fence
literal, and does not itself end with the closing fence literal,
post-processing the response wrapped in markdown fences yields the
same string as post-processing the response without fences. -/
theorem claim_c4_amended (s : List Char)
    (hstrip : pyStrip s = s)
    (hpre : fence_json.isPrefixOf s = false)
    (hsuf : fence_ticks.isSuffixOf s = false) :
    gemini_postprocess (wrap_fences s) = gemini_postprocess s := by
  have hd : s.dropWhile isPySpace = s :=
    aux_dropWhile_eq_self_of_pyStrip s hstrip
  have h1 : fence_json.isPrefixOf (wrap_fences s) = true := by
    simp [wrap_fences, List.isPrefixOf_iff_prefix]
  have h2 : (wrap_fences s).drop 7 = s ++ fence_ticks := by
    have h7 : fence_json.length = 7 := by decide
    rw [wrap_fences, ← h7, List.drop_left]
  have h3 : pyStrip (s ++ fence_ticks) = s ++ fence_ticks :=
    aux_pyStrip_append_ticks s hd
  have h4 : fence_ticks.isSuffixOf (s ++ fence_ticks) = true := by
    simp [List.isSuffixOf_iff_suffix]
  have h5 : (s ++ fence_ticks).take ((s ++ fence_ticks).length - 3) = s := by
    have hlen : (s ++ fence_ticks).length - 3 = s.length := by
      simp [fence_ticks]
    rw [hlen]
    exact List.take_left s fence_ticks
  have hrhs : gemini_postprocess s = s := by
    simp [gemini_postprocess, hpre, hsuf]
  have hlhs : gemini_postprocess (wrap_fences s) = s := by
    simp only [gemini_postprocess, h1, if_true, h2, h3, h4, h5, hstrip]
  rw [hlhs, hrhs]

/-- C4 amended witness: the theorem applied to the concrete response
"a", which is stripped and fence-free. -/
theorem claim_c4_witness :
    pyStrip c4WitnessInput = c4WitnessInput ∧
    fence_json.isPrefixOf c4WitnessInput = false ∧
    fence_ticks.isSuffixOf c4WitnessInput = false ∧
    gemini_postprocess (wrap_fences c4WitnessInput) =
      gemini_postprocess c4WitnessInput :=
  ⟨by decide, by decide, by decide,
   claim_c4_amended c4WitnessInput (by decide) (by decide) (by decide)⟩

/-- C8: for every positive geometry the driver partitions the twelve
edges of the box [-W/2, W/2] x [-H/2, H/2] x [0, L] into three groups
of four by direction, locating each edge by a sample coordinate that
lies on that edge and on no other edge of the box, and seeds the
length group with elements_length, the width group with
elements_width and the height group with elements_height, each under
a fixed-count constraint. -/
theorem claim_c8_edge_partition (W H L : Rat)
    (hW : 0 < W) (hH : 0 < H) (hL : 0 < L) :
    edgePartitionProp W H L := by
  refine ⟨rfl, rfl, ?_, ?_, rfl, ?_⟩
  · intro i
    fin_cases i <;>
      simp [sampleCoord, boxEdgeAt, BoxEdge.onEdge] <;>
      (repeat' apply And.intro) <;> linarith
  · intro i j hij
    fin_cases i <;> fin_cases j <;>
      first
        | exact absurd rfl hij
        | (simp only [sampleCoord, boxEdgeAt, BoxEdge.onEdge]
           rintro ⟨h1, h2, h3, h4⟩
           linarith)
  · intro mn mat_name E nu F nl nw nh
    refine ⟨?_, ?_, ?_⟩ <;>
      simp [SimulationRunner.cantilever_calls,
        SimulationRunner.lengthEdgeCoords,
        SimulationRunner.widthEdgeCoords,
        SimulationRunner.heightEdgeCoords]

/-- C8 witness: the theorem applied at the unit cube geometry. -/
theorem claim_c8_witness :
    (0 : Rat) < 1 ∧ edgePartitionProp 1 1 1 :=
  ⟨by norm_num,
   claim_c8_edge_partition 1 1 1 (by norm_num) (by norm_num) (by norm_num)⟩

end AiAutomationPoc
